import Mathlib

/-!
Shallow embedding of the Oversubscribed Tiered Storage Manager
(`src/core/virtual_storage_manager.{h,cpp}`, namespace `StorageOpt`).

Modelling conventions:
* `size_t` counters are natural numbers; where the C++ code can overflow or
  underflow (all `+=`/`-=` on quota counters and the free-space subtraction)
  the updates are taken modulo `2 ^ 64` (`add64` / `sub64`).
* Timestamps (`std::chrono::system_clock::time_point`) are modelled in whole
  hours as naturals, because the code only ever inspects them through
  `duration_cast<hours>(now - last_access).count()`.  Every public operation
  receives the current time `now` as an explicit argument.
* `double` values that stay within rational arithmetic in the code
  (the overcommit multiplier: `* 1.1`, comparison with `10.0`,
  `static_cast<size_t>(physical_limit * multiplier)`, and `priority_score`
  updates) are modelled as rationals so the state machine is executable.
* `double` computations that go through transcendental functions
  (`CalculateFileQuantumFactor`, `CalculateQuantumEntanglement`,
  `RecalculateQuantumMultiplier`, `ApplyQuantumSuperposition`,
  `PredictOptimalTier`) are modelled over the reals in a second layer below.
  The state machine takes the values those routines feed into it
  (the per-write quantum factor, the tier chosen by `PredictOptimalTier`,
  the recomputed multiplier) as explicit oracle arguments, and the
  sequence theorems quantify over all oracles, so they hold in particular
  for the real-valued routines.
* The filesystem touched by `std::ofstream` / `std::ifstream` /
  `std::filesystem::rename` / `remove` is modelled as an association list
  from physical path to byte list.  `CacheFile`, `EvictFromCache`,
  `UploadToCloud` and `DownloadFromCloud` are print-only stubs in the
  source (they mutate nothing and return `true`); they are modelled as the
  identity on the state, exactly as the source behaves.
-/

set_option maxRecDepth 2000

namespace StorageOpt

/-- Storage tiers, from `virtual_storage_manager.h` (`enum class StorageTier`). -/
inductive StorageTier where
  | HOT
  | WARM
  | COLD
  | FROZEN
deriving DecidableEq, Repr

/-- Per-file metadata, from `struct VirtualFile` in `virtual_storage_manager.h`.
`last_access` is in hours, `priority_score` is the `double` field as a rational. -/
structure VirtualFile where
  virtual_path : String
  physical_path : String
  virtual_size : Nat
  physical_size : Nat
  tier : StorageTier
  is_cached : Bool
  is_compressed : Bool
  last_access : Nat
  priority_score : ℚ
  cloud_location : String
deriving DecidableEq, Repr

/-- Quota bookkeeping, from `struct StorageQuota` in `virtual_storage_manager.h`. -/
structure StorageQuota where
  physical_limit : Nat
  virtual_limit : Nat
  current_physical : Nat
  current_virtual : Nat
  multiplier_factor : ℚ
deriving DecidableEq, Repr

/-- Machine word modulus for the `size_t` quota counters. -/
def W64 : Nat := 2 ^ 64

/-- Wrapping `size_t` addition. -/
def add64 (a b : Nat) : Nat := (a + b) % W64

/-- Wrapping `size_t` subtraction (two's-complement behaviour of `a - b`). -/
def sub64 (a b : Nat) : Nat := ((W64 + a) - b) % W64

/-- Association-list lookup keyed by strings, modelling `unordered_map::find`. -/
def lookupA {β : Type} (p : String) : List (String × β) → Option β
  | [] => none
  | (k, v) :: rest => if k = p then some v else lookupA p rest

/-- Insert-or-replace, modelling `map[key] = value` on `unordered_map`. -/
def insertA {β : Type} (p : String) (v : β) : List (String × β) → List (String × β)
  | [] => [(p, v)]
  | (k, w) :: rest => if k = p then (p, v) :: rest else (k, w) :: insertA p v rest

/-- Erase a key, modelling `map.erase(it)` on `unordered_map`. -/
def eraseA {β : Type} (p : String) : List (String × β) → List (String × β)
  | [] => []
  | (k, w) :: rest => if k = p then rest else (k, w) :: eraseA p rest

/-- Whole manager state: the virtual file table, the quota ledger, the cache
budget `max_cache_size_`, and the physical filesystem contents. -/
structure ManagerState where
  base_path : String
  files : List (String × VirtualFile)
  quota : StorageQuota
  max_cache_size : Nat
  fs : List (String × List Nat)
deriving DecidableEq, Repr

/-- Directory name for a tier, from `GetPhysicalPath`. -/
def tierDir : StorageTier → String
  | .HOT => "hot"
  | .WARM => "warm"
  | .COLD => "cold"
  | .FROZEN => "frozen"

/-- Path sanitisation in `GetPhysicalPath`: path separators and colons become
underscores. -/
def sanitizeName (s : String) : String :=
  s.map fun c => if c = '/' ∨ c = '\\' ∨ c = ':' then '_' else c

/-- Physical location of a virtual path in a tier (`GetPhysicalPath`). -/
def getPhysicalPath (base : String) (virtual_path : String) (tier : StorageTier) : String :=
  base ++ "/" ++ tierDir tier ++ "/" ++ sanitizeName virtual_path

/-- Truncating cast `static_cast<size_t>(q)` for the nonnegative rationals the
code produces (`physical_limit * multiplier`). -/
def ratToSize (q : ℚ) : Nat := (⌊q⌋).toNat

/-- Clamp on rationals, `std::clamp(x, lo, hi)`. -/
def clampQ (x lo hi : ℚ) : ℚ := max lo (min x hi)

/-- Initial state after `Initialize(base_path, physical_limit)`.  The multiplier
the constructor-time `RecalculateQuantumMultiplier` produces involves random
noise, so it is a parameter `m`; `virtual_limit` is derived from it exactly as
in the source.  The cache budget is the constructor constant `1024^3`. -/
def initState (base : String) (physical_limit : Nat) (m : ℚ) : ManagerState :=
  { base_path := base
    files := []
    quota :=
      { physical_limit := physical_limit
        virtual_limit := ratToSize (physical_limit * m)
        current_physical := 0
        current_virtual := 0
        multiplier_factor := m }
    max_cache_size := 1024 * 1024 * 1024
    fs := [] }

/-- Translation of `VirtualStorageManager::ExpandVirtualSpace`.  Fails (without
mutating) when the grown multiplier would exceed `10.0`; otherwise records the
grown multiplier and the recomputed virtual limit.  Note the source does not
cap the multiplier at `10.0`: it refuses the expansion instead. -/
def expandVirtualSpace (s : ManagerState) (additional_factor : ℚ) : Bool × ManagerState :=
  let new_multiplier := s.quota.multiplier_factor * additional_factor
  if 10 < new_multiplier then
    (false, s)
  else
    (true,
      { s with
        quota :=
          { s.quota with
            multiplier_factor := new_multiplier
            virtual_limit := ratToSize (s.quota.physical_limit * new_multiplier) } })

/-- Translation of `VirtualStorageManager::CreateVirtualFile`.  The source
checks `current_virtual + size > virtual_limit` and, if so, asks
`ExpandVirtualSpace(1.1)` once; if the expansion is refused the create fails.
If the expansion is accepted the create proceeds WITHOUT re-checking the
quota.  The source never looks up whether `virtual_path` is already present:
`virtual_files_[virtual_path] = vfile` replaces any existing entry and
`current_virtual += size` is applied unconditionally. -/
def createVirtualFile (now : Nat) (s : ManagerState) (virtual_path : String) (size : Nat) :
    Bool × ManagerState :=
  let step :=
    if s.quota.virtual_limit < add64 s.quota.current_virtual size then
      expandVirtualSpace s (11 / 10)
    else
      (true, s)
  if step.fst = false then
    (false, step.snd)
  else
    let s1 := step.snd
    let vfile : VirtualFile :=
      { virtual_path := virtual_path
        physical_path := getPhysicalPath s1.base_path virtual_path .HOT
        virtual_size := size
        physical_size := 0
        tier := .HOT
        is_cached := false
        is_compressed := false
        last_access := now
        priority_score := 1
        cloud_location := "" }
    (true,
      { s1 with
        files := insertA virtual_path vfile s1.files
        quota :=
          { s1.quota with
            current_virtual := add64 s1.quota.current_virtual size } })

/-- Translation of `VirtualStorageManager::HasPhysicalSpace`. -/
def hasPhysicalSpace (s : ManagerState) (required_size : Nat) : Bool :=
  add64 s.quota.current_physical required_size ≤ s.quota.physical_limit

/-- One step of the `OptimizeAllTiers` loop body for a single file: when the
tier chosen for the file differs from its current tier and the physical file
exists, the bytes are renamed into the new tier directory and `physical_path`
and `tier` are updated; the quota ledger is not touched.  The tier decision
(`PredictOptimalTier`, a real-valued computation) is the `oracle` argument. -/
def moveFileTier (base : String) (oracle : VirtualFile → StorageTier)
    (fs : List (String × List Nat)) (vf : VirtualFile) :
    List (String × List Nat) × VirtualFile :=
  let optimal := oracle vf
  if optimal = vf.tier then
    (fs, vf)
  else
    match lookupA vf.physical_path fs with
    | none => (fs, vf)
    | some data =>
      let new_physical_path := getPhysicalPath base vf.virtual_path optimal
      (insertA new_physical_path data (eraseA vf.physical_path fs),
        { vf with physical_path := new_physical_path, tier := optimal })

/-- Iteration of `OptimizeAllTiers` over the whole file table, threading the
filesystem through the per-file moves. -/
def optimizeFiles (base : String) (oracle : VirtualFile → StorageTier) :
    List (String × VirtualFile) → List (String × List Nat) →
    List (String × VirtualFile) × List (String × List Nat)
  | [], fs => ([], fs)
  | (k, vf) :: rest, fs =>
    let step := moveFileTier base oracle fs vf
    let tail := optimizeFiles base oracle rest step.fst
    ((k, step.snd) :: tail.fst, tail.snd)

/-- Translation of `VirtualStorageManager::OptimizeAllTiers`.  It only moves
physical files between tier directories and rewrites `physical_path`/`tier`;
it never changes the `StorageQuota` ledger (in particular it never releases
physical bytes). -/
def optimizeAllTiers (oracle : VirtualFile → StorageTier) (s : ManagerState) : ManagerState :=
  let r := optimizeFiles s.base_path oracle s.files s.fs
  { s with files := r.fst, fs := r.snd }

/-- Body of `WriteVirtualFile` after the physical-space availability phase:
re-checks the space, persists the bytes at the file's `physical_path`, updates
`physical_size`, `last_access` and `current_physical`, and multiplies
`priority_score` by the clamped quantum factor (`rawFactor` is the value
`CalculateFileQuantumFactor` would compute before its final clamp to
`[1.0, 2.0]`, a real-valued computation; see the real layer below). -/
def writePersist (now : Nat) (rawFactor : ℚ) (virtual_path : String) (data : List Nat)
    (s1 : ManagerState) : Bool × ManagerState :=
  if hasPhysicalSpace s1 data.length = false then
    (false, s1)
  else
    match lookupA virtual_path s1.files with
    | none => (false, s1)
    | some vfile =>
      let vfile1 :=
        { vfile with
          physical_size := data.length
          last_access := now
          priority_score := vfile.priority_score * clampQ rawFactor 1 2 }
      (true,
        { s1 with
          files := insertA virtual_path vfile1 s1.files
          fs := insertA vfile.physical_path data s1.fs
          quota :=
            { s1.quota with
              current_physical := add64 s1.quota.current_physical data.length } })

/-- Translation of `VirtualStorageManager::WriteVirtualFile`: fails when the
path is absent; otherwise runs the synchronous `OptimizeAllTiers` pass when
physical space is short (`oracle` is the tier predictor it uses) and then
persists via `writePersist`. -/
def writeVirtualFile (now : Nat) (oracle : VirtualFile → StorageTier) (rawFactor : ℚ)
    (s : ManagerState) (virtual_path : String) (data : List Nat) :
    Bool × ManagerState :=
  match lookupA virtual_path s.files with
  | none => (false, s)
  | some _ =>
    writePersist now rawFactor virtual_path data
      (if hasPhysicalSpace s data.length then s else optimizeAllTiers oracle s)

/-- Print-only stub `VirtualStorageManager::DownloadFromCloud`: always `true`,
no state change. -/
def downloadFromCloud (_virtual_path : String) : Bool := true

/-- Body of `ReadVirtualFile` after the `last_access` update has been stored:
the Frozen-tier cloud retrieval (whose stub always succeeds), the physical
read with the buffer-size check, and the capped priority bump
`min(priority + 0.1, 2.0)`.  `vfile` is the (already timestamp-updated) entry
and `s1` the state holding it. -/
def readDeliver (bufsize : Nat) (vfile : VirtualFile) (s1 : ManagerState)
    (virtual_path : String) (data : List Nat) : Bool × ManagerState × Option (List Nat) :=
  if bufsize < data.length then
    (false, s1, none)
  else
    (true,
      { s1 with
        files := insertA virtual_path
          { vfile with priority_score := min (vfile.priority_score + 1 / 10) 2 }
          s1.files },
      some data)

def readFetch (bufsize : Nat) (vfile : VirtualFile) (s1 : ManagerState)
    (virtual_path : String) : Bool × ManagerState × Option (List Nat) :=
  if vfile.tier = .FROZEN ∧ vfile.cloud_location ≠ "" ∧ downloadFromCloud virtual_path = false
  then
    (false, s1, none)
  else
    match lookupA vfile.physical_path s1.fs with
    | none => (false, s1, none)
    | some data => readDeliver bufsize vfile s1 virtual_path data

/-- Translation of `VirtualStorageManager::ReadVirtualFile`.  `bufsize` is the
caller's buffer capacity (the in-out `size` parameter).  Returns the success
flag, the updated state, and the bytes copied to the caller's buffer.  The
`last_access` update happens before any of the checks, so it persists even on
the failure paths, as in the source. -/
def readVirtualFile (now : Nat) (s : ManagerState) (virtual_path : String) (bufsize : Nat) :
    Bool × ManagerState × Option (List Nat) :=
  match lookupA virtual_path s.files with
  | none => (false, s, none)
  | some vfile0 =>
    readFetch bufsize { vfile0 with last_access := now }
      { s with files := insertA virtual_path { vfile0 with last_access := now } s.files }
      virtual_path

/-- Translation of `VirtualStorageManager::DeleteVirtualFile`.  Note the
source decrements BOTH quota counters by `virtual_size` (`quota_.current_physical
-= vfile.virtual_size`), not by `physical_size`, with wrapping `size_t`
subtraction. -/
def deleteVirtualFile (s : ManagerState) (virtual_path : String) : Bool × ManagerState :=
  match lookupA virtual_path s.files with
  | none => (false, s)
  | some vfile =>
    (true,
      { s with
        files := eraseA virtual_path s.files
        fs := eraseA vfile.physical_path s.fs
        quota :=
          { s.quota with
            current_physical := sub64 s.quota.current_physical vfile.virtual_size
            current_virtual := sub64 s.quota.current_virtual vfile.virtual_size } })

/-- Translation of `VirtualStorageManager::GetVirtualSpaceFree`: the raw
`size_t` subtraction `virtual_limit - current_virtual`, which wraps modulo
`2 ^ 64` when usage exceeds the limit. -/
def getVirtualSpaceFree (q : StorageQuota) : Nat :=
  sub64 q.virtual_limit q.current_virtual

/-- Translation of `VirtualStorageManager::RecalculateVirtualLimits`, with the
multiplier already stored in the quota. -/
def recalculateVirtualLimits (s : ManagerState) : ManagerState :=
  { s with
    quota :=
      { s.quota with
        virtual_limit := ratToSize (s.quota.physical_limit * s.quota.multiplier_factor) } }

/-- Total bytes the cache believes it holds: the `cache_usage` accumulation in
`OptimizeCache` (sum of `physical_size` over entries with `is_cached`). -/
def cachedBytes (files : List (String × VirtualFile)) : Nat :=
  files.foldl (fun acc kv => if kv.snd.is_cached then acc + kv.snd.physical_size else acc) 0

/-- Print-only stub `VirtualStorageManager::EvictFromCache`: the source only
logs and returns `true`; it removes nothing and clears no `is_cached` flag. -/
def evictFromCache (s : ManagerState) (_virtual_path : String) : Bool × ManagerState :=
  (true, s)

/-- Insertion sort of `(path, last_access)` pairs by ascending `last_access`,
modelling the `std::sort` comparator in `OptimizeCache`. -/
def insertByAccess (x : String × Nat) : List (String × Nat) → List (String × Nat)
  | [] => [x]
  | y :: rest => if x.snd ≤ y.snd then x :: y :: rest else y :: insertByAccess x rest

/-- Sort used by `OptimizeCache` (oldest `last_access` first). -/
def sortByAccess (l : List (String × Nat)) : List (String × Nat) :=
  l.foldr insertByAccess []

/-- Eviction loop of `OptimizeCache`: walks the age-sorted cached files,
stopping once the locally tracked usage is back under budget, calling the
(stub) eviction on each victim and decrementing the local counter. -/
def evictLoop (budget : Nat) : List (String × Nat) → ManagerState → Nat → ManagerState
  | [], s, _ => s
  | (p, sz) :: rest, s, usage =>
    if usage ≤ budget then s
    else evictLoop budget rest (evictFromCache s p).snd (usage - sz)

/-- Translation of `VirtualStorageManager::OptimizeCache`: computes the cached
byte total, and when it exceeds `max_cache_size_` sorts the cached entries by
`last_access` and runs the eviction loop.  Because `EvictFromCache` is a stub,
the state is returned unchanged. -/
def optimizeCache (s : ManagerState) : ManagerState :=
  let usage := cachedBytes s.files
  if usage ≤ s.max_cache_size then s
  else
    let cached := s.files.filterMap fun kv =>
      if kv.snd.is_cached then some (kv.fst, (kv.snd.last_access, kv.snd.physical_size)) else none
    let sorted := sortByAccess (cached.map fun kv => (kv.fst, kv.snd.fst))
    let withSizes := sorted.map fun kv =>
      (kv.fst,
        match lookupA kv.fst s.files with
        | some vf => vf.physical_size
        | none => 0)
    evictLoop s.max_cache_size withSizes s usage

/-- Adjust only the stored multiplier, modelling the write of the recomputed
coefficient into the quota by `RecalculateQuantumMultiplier` (the numeric value
being recomputed is real-valued and randomised; it enters here as `m`). -/
def recalcMultiplier (m : ℚ) (s : ManagerState) : ManagerState :=
  { s with quota := { s.quota with multiplier_factor := m } }

/-- Public-surface operations plus the three background-loop bodies, used to
state properties over arbitrary operation sequences.  The real-valued inputs
(the write-time quantum factor, the tier predictor, the recomputed multiplier)
are carried as parameters, so theorems quantified over all `Op` lists cover the
actual real-valued routines as instances. -/
inductive Op where
  | create (now : Nat) (path : String) (size : Nat)
  | write (now : Nat) (path : String) (data : List Nat) (rawFactor : ℚ)
      (oracle : VirtualFile → StorageTier)
  | read (now : Nat) (path : String) (bufsize : Nat)
  | delete (path : String)
  | rebalance (oracle : VirtualFile → StorageTier)
  | trimCache
  | recalc (m : ℚ)

/-- State transition of one operation (return values discarded). -/
def applyOp (s : ManagerState) : Op → ManagerState
  | .create now p n => (createVirtualFile now s p n).snd
  | .write now p b r oracle => (writeVirtualFile now oracle r s p b).snd
  | .read now p buf => (readVirtualFile now s p buf).snd.fst
  | .delete p => (deleteVirtualFile s p).snd
  | .rebalance oracle => optimizeAllTiers oracle s
  | .trimCache => optimizeCache s
  | .recalc m => recalculateVirtualLimits (recalcMultiplier m s)

/-- Run a sequence of operations. -/
def runOps (s : ManagerState) (ops : List Op) : ManagerState := ops.foldl applyOp s

/-!
Real-valued layer: faithful translations of the `double` computations
that involve transcendental functions.  These mirror
`CalculateQuantumEntanglement`, `CalculateFileQuantumFactor`,
`PredictOptimalTier`, `GetCompressionEfficiency`, `GetCloudStorageUsed`,
`ApplyQuantumSuperposition` and `RecalculateQuantumMultiplier`.
-/

/-- Clamp on reals, `std::clamp(x, lo, hi)`. -/
noncomputable def clampR (x lo hi : ℝ) : ℝ := max lo (min x hi)

/-- Parent directory of a path as `std::filesystem::path::parent_path` yields
it for the flat strings used here: everything before the last separator,
`""` when there is none. -/
def dirOf (s : String) : String :=
  match s.data.reverse.dropWhile (fun c => c ≠ '/') with
  | [] => ""
  | _ :: rest => String.mk rest.reverse

/-- File extension as `std::filesystem::path::extension` yields it: from the
last dot of the filename (inclusive), empty when there is no dot or the dot is
the leading character of the filename. -/
def extOf (s : String) : String :=
  let fnameRev := s.data.reverse.takeWhile (fun c => c ≠ '/')
  let afterRev := fnameRev.takeWhile (fun c => c ≠ '.')
  if afterRev.length = fnameRev.length then ""
  else if afterRev.length + 1 = fnameRev.length then ""
  else String.mk ('.' :: afterRev.reverse)

/-- Number of OTHER table entries sharing the directory of `path`
(the `related_files` loop of `CalculateQuantumEntanglement`). -/
def relatedDirCount (table : List String) (path : String) : Nat :=
  (table.filter fun p => p ≠ path ∧ dirOf p = dirOf path).length

/-- Number of OTHER table entries sharing the extension of `path`
(the second loop of `CalculateQuantumEntanglement`). -/
def relatedExtCount (table : List String) (path : String) : Nat :=
  (table.filter fun p => p ≠ path ∧ extOf p = extOf path).length

/-- Translation of `VirtualStorageManager::CalculateQuantumEntanglement`:
`tanh(related/10) * 0.5` plus `0.1` per extension match, clamped to `[0,1]`.
`table` is the list of keys of `virtual_files_`. -/
noncomputable def calculateQuantumEntanglement (table : List String) (path : String) : ℝ :=
  clampR (Real.tanh ((relatedDirCount table path : ℝ) / 10) * 0.5
      + (relatedExtCount table path : ℝ) * 0.1) 0 1

/-- Translation of `VirtualStorageManager::CalculateFileQuantumFactor`:
entanglement, exponential access decay over 24 hours, compression ratio,
combined and clamped to `[1.0, 2.0]`. -/
noncomputable def calculateFileQuantumFactor (table : List String) (now : Nat)
    (vf : VirtualFile) : ℝ :=
  let entanglement := calculateQuantumEntanglement table vf.virtual_path
  let time_diff : Nat := now - vf.last_access
  let access_factor := Real.exp (-(time_diff : ℝ) / 24)
  let compression_factor : ℝ :=
    if vf.is_compressed ∧ 0 < vf.physical_size then
      (vf.virtual_size : ℝ) / (vf.physical_size : ℝ)
    else 1
  clampR (1 + entanglement * 0.2 + access_factor * 0.1 + compression_factor * 0.05) 1 2

/-- Translation of `VirtualStorageManager::PredictOptimalTier`: hours since
last access divided by the file's quantum factor, then bucketed at 1, 24 and
168 hours. -/
noncomputable def predictOptimalTier (table : List String) (now : Nat)
    (vf : VirtualFile) : StorageTier :=
  let hours_since_access : Nat := now - vf.last_access
  let quantum_factor := calculateFileQuantumFactor table now vf
  let adjusted_hours : ℝ := (hours_since_access : ℝ) / quantum_factor
  if adjusted_hours < 1 then .HOT
  else if adjusted_hours < 24 then .WARM
  else if adjusted_hours < 168 then .COLD
  else .FROZEN

/-- Modelled from the spec for comparison in claim C5: tier prediction as "a
pure function of elapsed time since `last_access`, divided by the file's
priority score", with the same 1h / 24h / 168h buckets.  This follows the
spec's words, not the source. -/
noncomputable def specPredictTier (elapsedHours : Nat) (priority : ℝ) : StorageTier :=
  let effective_age : ℝ := (elapsedHours : ℝ) / priority
  if effective_age < 1 then .HOT
  else if effective_age < 24 then .WARM
  else if effective_age < 168 then .COLD
  else .FROZEN

/-- Totals accumulated by `GetCompressionEfficiency` over compressed files:
(virtual bytes, physical bytes). -/
def compressedTotals (files : List VirtualFile) : Nat × Nat :=
  files.foldl
    (fun acc f =>
      if f.is_compressed then (acc.fst + f.virtual_size, acc.snd + f.physical_size) else acc)
    (0, 0)

/-- Translation of `VirtualStorageManager::GetCompressionEfficiency`. -/
noncomputable def getCompressionEfficiency (files : List VirtualFile) : ℝ :=
  let t := compressedTotals files
  if t.fst = 0 then 0 else 1 - (t.snd : ℝ) / (t.fst : ℝ)

/-- Translation of `VirtualStorageManager::GetCloudStorageUsed`. -/
def getCloudStorageUsed (files : List VirtualFile) : Nat :=
  files.foldl (fun acc f => if f.cloud_location ≠ "" then acc + f.virtual_size else acc) 0

/-- Translation of `VirtualStorageManager::ApplyQuantumSuperposition`: the
base multiplier scaled by `1 + noise` (where `noise` is drawn from a normal
distribution in the source; here an explicit argument) plus the
`sin(base * pi) * 0.05` interference term. -/
noncomputable def applyQuantumSuperposition (noise base_multiplier : ℝ) : ℝ :=
  base_multiplier * (1 + noise) + Real.sin (base_multiplier * Real.pi) * 0.05

/-- Average per-file entanglement used by `RecalculateQuantumMultiplier`. -/
noncomputable def entanglementEffect (files : List VirtualFile) : ℝ :=
  (files.foldl
      (fun acc f =>
        acc + calculateQuantumEntanglement (files.map VirtualFile.virtual_path) f.virtual_path)
      0)
    / max (files.length : ℝ) 1

/-- Translation of `VirtualStorageManager::RecalculateQuantumMultiplier`:
`base_factor = 2.0` plus the compression boost (`efficiency * 0.3`), the cloud
boost (flat `1.5` when any bytes are in the cloud), the flat ML boost `0.4`,
and the entanglement average scaled by `entanglement_boost = 0.5`; passed
through the randomised superposition and clamped to `[1.5, 10.0]`. -/
noncomputable def recalculateQuantumMultiplier (files : List VirtualFile) (noise : ℝ) : ℝ :=
  let base : ℝ := 2
  let compression_boost := getCompressionEfficiency files * 0.3
  let cloud_boost : ℝ := if 0 < getCloudStorageUsed files then 1.5 else 0
  let ml_boost : ℝ := 0.4
  let entanglement_effect := entanglementEffect files * 0.5
  clampR
    (applyQuantumSuperposition noise
      (base + compression_boost + cloud_boost + ml_boost + entanglement_effect))
    1.5 10

/-!
Helper lemmas about the association-list table and the background passes.
-/

theorem lookupA_insertA_self {β : Type} (p : String) (v : β) (l : List (String × β)) :
    lookupA p (insertA p v l) = some v := by
  induction l with
  | nil => simp [insertA, lookupA]
  | cons kv rest ih =>
    by_cases h : kv.fst = p
    · simp [insertA, lookupA, h]
    · simpa [insertA, lookupA, h] using ih

theorem lookupA_insertA_ne {β : Type} {p q : String} (v : β) (l : List (String × β))
    (h : q ≠ p) : lookupA q (insertA p v l) = lookupA q l := by
  have h' : p ≠ q := Ne.symm h
  induction l with
  | nil => simp [insertA, lookupA, h']
  | cons kv rest ih =>
    obtain ⟨k, w⟩ := kv
    by_cases hk : k = p
    · subst hk
      simp [insertA, lookupA, h']
    · by_cases hq : k = q <;> simp [insertA, lookupA, hk, hq, h, h', ih]

theorem mem_of_mem_insertA {β : Type} {kv : String × β} {p : String} {v : β}
    {l : List (String × β)} (h : kv ∈ insertA p v l) : kv = (p, v) ∨ kv ∈ l := by
  induction l with
  | nil =>
    simp only [insertA, List.mem_singleton] at h
    exact Or.inl h
  | cons hd rest ih =>
    by_cases hk : hd.fst = p
    · simp only [insertA, hk, if_pos rfl] at h
      rcases List.mem_cons.mp h with h1 | h1
      · exact Or.inl h1
      · exact Or.inr (List.mem_cons_of_mem _ h1)
    · simp only [insertA, if_neg hk] at h
      rcases List.mem_cons.mp h with h1 | h1
      · exact Or.inr (h1 ▸ List.mem_cons_self _ _)
      · rcases ih h1 with h2 | h2
        · exact Or.inl h2
        · exact Or.inr (List.mem_cons_of_mem _ h2)

theorem mem_of_mem_eraseA {β : Type} {kv : String × β} {p : String}
    {l : List (String × β)} (h : kv ∈ eraseA p l) : kv ∈ l := by
  induction l with
  | nil => simp [eraseA] at h
  | cons hd rest ih =>
    by_cases hk : hd.fst = p
    · simp only [eraseA, if_pos hk] at h
      exact List.mem_cons_of_mem _ h
    · simp only [eraseA, if_neg hk] at h
      rcases List.mem_cons.mp h with h1 | h1
      · exact h1 ▸ List.mem_cons_self _ _
      · exact List.mem_cons_of_mem _ (ih h1)

theorem lookupA_mem {β : Type} {p : String} {v : β} {l : List (String × β)}
    (h : lookupA p l = some v) : (p, v) ∈ l := by
  induction l with
  | nil => simp [lookupA] at h
  | cons hd rest ih =>
    by_cases hk : hd.fst = p
    · simp only [lookupA, if_pos hk] at h
      obtain ⟨k, w⟩ := hd
      cases hk
      cases h
      exact List.mem_cons_self _ _
    · simp only [lookupA, if_neg hk] at h
      exact List.mem_cons_of_mem _ (ih h)

/-- The fields of a `VirtualFile` that a tier move (`moveFileTier`) never
touches. -/
def fileCore (vf : VirtualFile) :
    String × Nat × Nat × Bool × Bool × Nat × ℚ × String :=
  (vf.virtual_path, vf.virtual_size, vf.physical_size, vf.is_cached, vf.is_compressed,
    vf.last_access, vf.priority_score, vf.cloud_location)

theorem moveFileTier_core (base : String) (oracle : VirtualFile → StorageTier)
    (fs : List (String × List Nat)) (vf : VirtualFile) :
    fileCore (moveFileTier base oracle fs vf).snd = fileCore vf := by
  unfold moveFileTier
  by_cases h : oracle vf = vf.tier
  · simp [h]
  · simp only [if_neg h]
    cases lookupA vf.physical_path fs <;> simp [fileCore]

theorem optimizeFiles_lookup (base : String) (oracle : VirtualFile → StorageTier) :
    ∀ (l : List (String × VirtualFile)) (fs : List (String × List Nat)) (p : String)
      (vf : VirtualFile),
      lookupA p l = some vf →
      ∃ vf', lookupA p (optimizeFiles base oracle l fs).fst = some vf' ∧
        fileCore vf' = fileCore vf := by
  intro l
  induction l with
  | nil => intro fs p vf h; simp [lookupA] at h
  | cons hd rest ih =>
    intro fs p vf h
    obtain ⟨k, w⟩ := hd
    by_cases hk : k = p
    · subst hk
      simp only [lookupA, if_pos rfl] at h
      injection h with h2
      subst h2
      exact ⟨(moveFileTier base oracle fs w).snd, by simp [optimizeFiles, lookupA],
        moveFileTier_core base oracle fs w⟩
    · simp only [lookupA, if_neg hk] at h
      obtain ⟨vf', h1, h2⟩ := ih (moveFileTier base oracle fs w).fst p vf h
      exact ⟨vf', by simpa [optimizeFiles, lookupA, hk] using h1, h2⟩

theorem mem_optimizeFiles (base : String) (oracle : VirtualFile → StorageTier) :
    ∀ (l : List (String × VirtualFile)) (fs : List (String × List Nat)) (q : String)
      (v' : VirtualFile),
      (q, v') ∈ (optimizeFiles base oracle l fs).fst →
      ∃ v, (q, v) ∈ l ∧ fileCore v' = fileCore v := by
  intro l
  induction l with
  | nil => intro fs q v' h; simp [optimizeFiles] at h
  | cons hd rest ih =>
    intro fs q v' h
    obtain ⟨k, w⟩ := hd
    simp only [optimizeFiles, List.mem_cons] at h
    rcases h with h | h
    · injection h with hq hv
      subst hq
      subst hv
      exact ⟨w, List.mem_cons_self _ _, moveFileTier_core base oracle fs w⟩
    · obtain ⟨v, h1, h2⟩ := ih (moveFileTier base oracle fs w).fst q v' h
      exact ⟨v, List.mem_cons_of_mem _ h1, h2⟩

theorem optimizeAllTiers_quota (oracle : VirtualFile → StorageTier) (s : ManagerState) :
    (optimizeAllTiers oracle s).quota = s.quota := rfl

theorem evictLoop_eq (budget : Nat) :
    ∀ (l : List (String × Nat)) (s : ManagerState) (usage : Nat),
      evictLoop budget l s usage = s := by
  intro l
  induction l with
  | nil => intro s usage; rfl
  | cons hd rest ih =>
    intro s usage
    obtain ⟨p, sz⟩ := hd
    by_cases h : usage ≤ budget
    · simp [evictLoop, h]
    · simp [evictLoop, h, evictFromCache, ih]

theorem optimizeCache_eq (s : ManagerState) : optimizeCache s = s := by
  unfold optimizeCache
  by_cases h : cachedBytes s.files ≤ s.max_cache_size
  · simp [h]
  · simp [h, evictLoop_eq]

end StorageOpt

namespace StorageOpt

/-!
Claim theorems.
-/

/-- Claim C10 (confirmed): `GetVirtualSpaceFree` returns
`virtual_limit - current_virtual` in raw unsigned arithmetic; whenever
`current_virtual > virtual_limit` the result wraps modulo `2^64` to
`2^64 - (current_virtual - virtual_limit)` — a number even larger than the
virtual limit itself — instead of reporting `0` free bytes. -/
theorem C10_free_space_wraps (q : StorageQuota)
    (hlt : q.virtual_limit < q.current_virtual) (hb : q.current_virtual < W64) :
    getVirtualSpaceFree q = W64 - (q.current_virtual - q.virtual_limit) ∧
    q.virtual_limit < getVirtualSpaceFree q := by
  have hw : W64 = 18446744073709551616 := by norm_num [W64]
  unfold getVirtualSpaceFree sub64
  rw [hw] at hb ⊢
  omega

/-- Witness for C10: with `virtual_limit = 100` and `current_virtual = 200`
the reported free space is `2^64 - 100`. -/
theorem C10_witness :
    getVirtualSpaceFree
        { physical_limit := 1000, virtual_limit := 100, current_physical := 0,
          current_virtual := 200, multiplier_factor := 2 } =
      W64 - (200 - 100) ∧
    100 <
      getVirtualSpaceFree
        { physical_limit := 1000, virtual_limit := 100, current_physical := 0,
          current_virtual := 200, multiplier_factor := 2 } :=
  C10_free_space_wraps _ (by decide) (by norm_num [W64])

/-- Claim C4 counterexample: no tier-rebalance pass ever strictly decreases
`physical_used`, for any state and any tier decision — `OptimizeAllTiers` does
not touch the quota ledger at all, so the claimed Frozen-tier reclamation path
does not exist. -/
theorem C4_counterexample :
    ¬ ∃ (s : ManagerState) (oracle : VirtualFile → StorageTier),
        (optimizeAllTiers oracle s).quota.current_physical < s.quota.current_physical := by
  rintro ⟨s, oracle, h⟩
  rw [optimizeAllTiers_quota] at h
  exact lt_irrefl _ h

/-- Claim C4 (amended): the tier-rebalance pass (`OptimizeAllTiers`) moves
files between tier directories but never changes any quota counter, so the
synchronous rebalance that `WriteVirtualFile` triggers cannot free space:
given the target path is present, the write succeeds exactly when the
physical-space check already passed before the rebalance. -/
theorem C4_rebalance_frees_nothing (oracle : VirtualFile → StorageTier) (s : ManagerState)
    (now : Nat) (r : ℚ) (p : String) (b : List Nat) (vf : VirtualFile)
    (hp : lookupA p s.files = some vf) :
    (optimizeAllTiers oracle s).quota = s.quota ∧
    ((writeVirtualFile now oracle r s p b).fst = true ↔
      add64 s.quota.current_physical b.length ≤ s.quota.physical_limit) := by
  refine ⟨rfl, ?_⟩
  unfold writeVirtualFile
  rw [hp]
  by_cases hb : add64 s.quota.current_physical b.length ≤ s.quota.physical_limit
  · have hs : hasPhysicalSpace s b.length = true := by
      simp [hasPhysicalSpace, hb]
    simp [writePersist, hs, hp, hb]
  · have hs : hasPhysicalSpace s b.length = false := by
      simp [hasPhysicalSpace, hb]
    have hopt : hasPhysicalSpace (optimizeAllTiers oracle s) b.length = false := by
      simpa [hasPhysicalSpace, optimizeAllTiers_quota] using hs
    simp [writePersist, hs, hopt, hb]

/-- Witness for C4's amended theorem at a concrete one-file state. -/
def c4file : VirtualFile :=
  { virtual_path := "a", physical_path := "root/hot/a", virtual_size := 10,
    physical_size := 0, tier := .HOT, is_cached := false, is_compressed := false,
    last_access := 0, priority_score := 1, cloud_location := "" }

def c4state : ManagerState :=
  { base_path := "root", files := [("a", c4file)],
    quota := { physical_limit := 1000, virtual_limit := 2000, current_physical := 0,
               current_virtual := 10, multiplier_factor := 2 },
    max_cache_size := 1073741824, fs := [] }

theorem C4_witness :
    (optimizeAllTiers (fun _ => .HOT) c4state).quota = c4state.quota ∧
    ((writeVirtualFile 1 (fun _ => .HOT) 1 c4state "a" [1, 2, 3]).fst = true ↔
      add64 c4state.quota.current_physical 3 ≤ c4state.quota.physical_limit) :=
  C4_rebalance_frees_nothing (fun _ => .HOT) c4state 1 1 "a" [1, 2, 3] c4file rfl

/-- Claim C8 (code bug): the cache trim pass changes nothing.  `EvictFromCache`
is a print-only stub, so `OptimizeCache` leaves every state — including the
`is_cached` flags and the total cached bytes — exactly as it found them.  At
the concrete over-budget state below (two cached files of 600 MB and 700 MB
against a 1 GiB budget) the pass returns the state unchanged, with the cached
total still above the budget. -/
def c8file1 : VirtualFile :=
  { virtual_path := "a", physical_path := "root/hot/a", virtual_size := 600000000,
    physical_size := 600000000, tier := .HOT, is_cached := true, is_compressed := false,
    last_access := 0, priority_score := 1, cloud_location := "" }

def c8file2 : VirtualFile :=
  { virtual_path := "b", physical_path := "root/hot/b", virtual_size := 700000000,
    physical_size := 700000000, tier := .HOT, is_cached := true, is_compressed := false,
    last_access := 5, priority_score := 1, cloud_location := "" }

def c8state : ManagerState :=
  { base_path := "root", files := [("a", c8file1), ("b", c8file2)],
    quota := { physical_limit := 2000000000, virtual_limit := 4000000000,
               current_physical := 1300000000, current_virtual := 1300000000,
               multiplier_factor := 2 },
    max_cache_size := 1073741824, fs := [] }

theorem C8_trim_pass_is_noop :
    optimizeCache c8state = c8state ∧
    c8state.max_cache_size < cachedBytes c8state.files := by
  refine ⟨optimizeCache_eq _, ?_⟩
  norm_num [c8state, c8file1, c8file2, cachedBytes]

/-- Claim C1 (amended): a create is admitted exactly when the virtual quota
check passes outright OR the single coefficient-growth retry is accepted,
i.e. `multiplier * 1.1 <= 10.0`.  The source does not cap the grown
coefficient at the maximum (it refuses the growth instead), and after an
accepted growth it does NOT re-check the quota, so a successful create may
leave `virtual_used > virtual_limit`.  A refused create leaves the state
unchanged. -/
theorem C1_create_admission (now : Nat) (s : ManagerState) (p : String) (n : Nat) :
    ((createVirtualFile now s p n).fst = true ↔
      (add64 s.quota.current_virtual n ≤ s.quota.virtual_limit ∨
        s.quota.multiplier_factor * (11 / 10) ≤ 10)) ∧
    ((createVirtualFile now s p n).fst = false → (createVirtualFile now s p n).snd = s) := by
  by_cases hg : s.quota.virtual_limit < add64 s.quota.current_virtual n
  · by_cases hm : 10 < s.quota.multiplier_factor * (11 / 10)
    · have hval : createVirtualFile now s p n = (false, s) := by
        unfold createVirtualFile expandVirtualSpace
        simp [if_pos hg, if_pos hm]
      rw [hval]
      refine ⟨?_, fun _ => rfl⟩
      simp only [Bool.false_eq_true, false_iff, not_or, not_le]
      exact ⟨hg, hm⟩
    · have hval : (createVirtualFile now s p n).fst = true := by
        unfold createVirtualFile expandVirtualSpace
        simp [if_pos hg, if_neg hm]
      refine ⟨?_, ?_⟩
      · rw [hval]
        simp [le_of_not_lt hm]
      · rw [hval]
        simp
  · have hval : (createVirtualFile now s p n).fst = true := by
      unfold createVirtualFile expandVirtualSpace
      simp [if_neg hg]
    refine ⟨?_, ?_⟩
    · rw [hval]
      simp [le_of_not_lt hg]
    · rw [hval]
      simp

/-- Witness for C1's amended theorem: a concrete in-quota create is admitted. -/
theorem C1_witness :
    (createVirtualFile 0 (initState "root" 1000 2) "x" 100).fst = true :=
  (C1_create_admission 0 (initState "root" 1000 2) "x" 100).1.mpr
    (Or.inl (by norm_num [initState, ratToSize, add64, W64]))

def c1s0 : ManagerState := initState "root" 1073741824 2

def c1file1 : VirtualFile :=
  { virtual_path := "a", physical_path := getPhysicalPath "root" "a" .HOT,
    virtual_size := 1610612736, physical_size := 0, tier := .HOT, is_cached := false,
    is_compressed := false, last_access := 0, priority_score := 1, cloud_location := "" }

def c1s1 : ManagerState :=
  { base_path := "root", files := [("a", c1file1)],
    quota := { physical_limit := 1073741824, virtual_limit := 2147483648,
               current_physical := 0, current_virtual := 1610612736,
               multiplier_factor := 2 },
    max_cache_size := 1073741824, fs := [] }

/-- Claim C1 counterexample, the spec's own scenario: `physical_limit` 1 GiB,
coefficient 2.0 (so `virtual_limit` 2 GiB); `create("a", 1.5 GiB)` succeeds,
and then `create("b", 1 GiB)` ALSO succeeds even though the coefficient-growth
retry only raises the limit to `floor(1 GiB * 2.2) = 2362232012` bytes, far
below the 2.5 GiB then in use — the claim says this create must fail with
`QuotaExceeded` and that `virtual_used <= virtual_limit` holds after every
successful create. -/
theorem C1_counterexample :
    (createVirtualFile 0 c1s0 "a" 1610612736).fst = true ∧
    (createVirtualFile 1 (createVirtualFile 0 c1s0 "a" 1610612736).snd "b" 1073741824).fst
      = true ∧
    (createVirtualFile 1 (createVirtualFile 0 c1s0 "a" 1610612736).snd
        "b" 1073741824).snd.quota.virtual_limit
      < (createVirtualFile 1 (createVirtualFile 0 c1s0 "a" 1610612736).snd
        "b" 1073741824).snd.quota.current_virtual := by
  have h1 : createVirtualFile 0 c1s0 "a" 1610612736 = (true, c1s1) := by
    have e1 : ratToSize ((1073741824 : Nat) * (2 : ℚ)) = 2147483648 := by
      norm_num [ratToSize]
      rfl
    simp only [c1s0, initState, createVirtualFile, expandVirtualSpace, e1]
    norm_num [add64, W64, c1s1, c1file1, insertA]
  rw [h1]
  have e2 : ratToSize ((1073741824 : Nat) * ((2 : ℚ) * (11 / 10))) = 2362232012 := by
    have hf : ⌊((1073741824 : Nat) * ((2 : ℚ) * (11 / 10)))⌋ = 2362232012 := by
      rw [Int.floor_eq_iff]
      constructor <;> norm_num
    norm_num [ratToSize, hf]
    rfl
  have h2 :
      createVirtualFile 1 c1s1 "b" 1073741824 =
        (true,
          { base_path := "root"
            files := insertA "b"
              { virtual_path := "b", physical_path := getPhysicalPath "root" "b" .HOT,
                virtual_size := 1073741824, physical_size := 0, tier := .HOT,
                is_cached := false, is_compressed := false, last_access := 1,
                priority_score := 1, cloud_location := "" } c1s1.files
            quota := { physical_limit := 1073741824, virtual_limit := 2362232012,
                       current_physical := 0, current_virtual := 2684354560,
                       multiplier_factor := 2 * (11 / 10) }
            max_cache_size := 1073741824, fs := [] }) := by
    have hga : (2147483648 : Nat) < add64 1610612736 1073741824 := by
      norm_num [add64, W64]
    have hm : ¬ ((10 : ℚ) < 2 * (11 / 10)) := by norm_num
    simp only [createVirtualFile, expandVirtualSpace, c1s1, e2]
    rw [if_pos hga, if_neg hm]
    norm_num [add64, W64]
  rw [h2]
  norm_num

/-- Claim C2 counterexample: creating the same path twice succeeds both times
(the source has no `AlreadyExists` check), overwrites the entry, and adds the
size to `virtual_used` a second time (20 instead of 10). -/
def c2s0 : ManagerState := initState "root" 1000 2

theorem C2_counterexample :
    (createVirtualFile 1 (createVirtualFile 0 c2s0 "a" 10).snd "a" 10).fst = true ∧
    (createVirtualFile 1 (createVirtualFile 0 c2s0 "a" 10).snd
        "a" 10).snd.quota.current_virtual = 20 := by
  have e1 : ratToSize ((1000 : Nat) * (2 : ℚ)) = 2000 := by
    norm_num [ratToSize]
    rfl
  have h1 : createVirtualFile 0 c2s0 "a" 10 =
      (true,
        { base_path := "root"
          files := [("a",
            { virtual_path := "a", physical_path := getPhysicalPath "root" "a" .HOT,
              virtual_size := 10, physical_size := 0, tier := .HOT, is_cached := false,
              is_compressed := false, last_access := 0, priority_score := 1,
              cloud_location := "" })]
          quota := { physical_limit := 1000, virtual_limit := 2000, current_physical := 0,
                     current_virtual := 10, multiplier_factor := 2 }
          max_cache_size := 1073741824, fs := [] }) := by
    simp only [c2s0, initState, createVirtualFile, expandVirtualSpace, e1]
    norm_num [add64, W64, insertA]
  rw [h1]
  simp only [createVirtualFile, expandVirtualSpace]
  norm_num [add64, W64]

/-- Claim C2 (amended): when `path` is already present, `CreateVirtualFile`
does NOT fail with `AlreadyExists`: it is admitted under exactly the same
quota condition as for a fresh path, and on success it replaces the existing
entry with a brand-new `VirtualFile` (Hot tier, `physical_size` 0, priority
1.0) and adds `size` to `virtual_used` a second time. -/
theorem C2_create_ignores_presence (now : Nat) (s : ManagerState) (p : String) (n : Nat)
    (vf : VirtualFile) (_hp : lookupA p s.files = some vf)
    (hs : (createVirtualFile now s p n).fst = true) :
    lookupA p (createVirtualFile now s p n).snd.files =
      some
        { virtual_path := p, physical_path := getPhysicalPath s.base_path p .HOT,
          virtual_size := n, physical_size := 0, tier := .HOT, is_cached := false,
          is_compressed := false, last_access := now, priority_score := 1,
          cloud_location := "" } ∧
    (createVirtualFile now s p n).snd.quota.current_virtual =
      add64 s.quota.current_virtual n := by
  unfold createVirtualFile expandVirtualSpace at hs ⊢
  by_cases hg : s.quota.virtual_limit < add64 s.quota.current_virtual n
  · by_cases hm : 10 < s.quota.multiplier_factor * (11 / 10)
    · simp [if_pos hg, if_pos hm] at hs
    · simp only [if_pos hg, if_neg hm]
      exact ⟨lookupA_insertA_self _ _ _, rfl⟩
  · simp only [if_neg hg]
    exact ⟨lookupA_insertA_self _ _ _, rfl⟩

def c2file : VirtualFile :=
  { virtual_path := "a", physical_path := getPhysicalPath "root" "a" .HOT,
    virtual_size := 10, physical_size := 0, tier := .HOT, is_cached := false,
    is_compressed := false, last_access := 0, priority_score := 1, cloud_location := "" }

def c2s1 : ManagerState :=
  { base_path := "root", files := [("a", c2file)],
    quota := { physical_limit := 1000, virtual_limit := 2000, current_physical := 0,
               current_virtual := 10, multiplier_factor := 2 },
    max_cache_size := 1073741824, fs := [] }

/-- Witness for C2's amended theorem: re-creating the present path `"a"`. -/
theorem C2_witness :
    lookupA "a" (createVirtualFile 7 c2s1 "a" 10).snd.files =
      some
        { virtual_path := "a", physical_path := getPhysicalPath c2s1.base_path "a" .HOT,
          virtual_size := 10, physical_size := 0, tier := .HOT, is_cached := false,
          is_compressed := false, last_access := 7, priority_score := 1,
          cloud_location := "" } ∧
    (createVirtualFile 7 c2s1 "a" 10).snd.quota.current_virtual =
      add64 c2s1.quota.current_virtual 10 :=
  C2_create_ignores_presence 7 c2s1 "a" 10 c2file rfl
    (by
      simp only [createVirtualFile, expandVirtualSpace, c2s1]
      norm_num [add64, W64])

/-- Claim C3 (code bug): deleting a file that was created with size 100 but
never written leaves `current_virtual` restored to 0 but drives
`current_physical` from 0 to `2^64 - 100`: `DeleteVirtualFile` subtracts the
file's VIRTUAL size from the physical counter, underflowing the unsigned
counter instead of restoring it. The second delete does fail (`NotFound`). -/
def c3s0 : ManagerState := initState "root" 1073741824 2

theorem C3_delete_underflows_physical :
    (createVirtualFile 0 c3s0 "a" 100).fst = true ∧
    (deleteVirtualFile (createVirtualFile 0 c3s0 "a" 100).snd "a").fst = true ∧
    (deleteVirtualFile (createVirtualFile 0 c3s0 "a" 100).snd
        "a").snd.quota.current_physical = W64 - 100 ∧
    (deleteVirtualFile (createVirtualFile 0 c3s0 "a" 100).snd
        "a").snd.quota.current_virtual = 0 ∧
    (deleteVirtualFile
        (deleteVirtualFile (createVirtualFile 0 c3s0 "a" 100).snd "a").snd "a").fst
      = false := by
  have e1 : ratToSize ((1073741824 : Nat) * (2 : ℚ)) = 2147483648 := by
    norm_num [ratToSize]
    rfl
  have h1 : createVirtualFile 0 c3s0 "a" 100 =
      (true,
        { base_path := "root"
          files := [("a",
            { virtual_path := "a", physical_path := getPhysicalPath "root" "a" .HOT,
              virtual_size := 100, physical_size := 0, tier := .HOT, is_cached := false,
              is_compressed := false, last_access := 0, priority_score := 1,
              cloud_location := "" })]
          quota := { physical_limit := 1073741824, virtual_limit := 2147483648,
                     current_physical := 0, current_virtual := 100,
                     multiplier_factor := 2 }
          max_cache_size := 1073741824, fs := [] }) := by
    simp only [c3s0, initState, createVirtualFile, expandVirtualSpace, e1]
    norm_num [add64, W64, insertA]
  rw [h1]
  simp only [deleteVirtualFile, lookupA, eraseA, if_pos rfl]
  norm_num [sub64, W64]

/-- Shape of the state a successful `WriteVirtualFile` leaves behind: the
entry for `p` and the physical bytes are stored under the same
`physical_path`. -/
theorem writePersist_success_shape (now : Nat) (r : ℚ) (p : String) (b : List Nat)
    (s1 : ManagerState) (hw : (writePersist now r p b s1).fst = true) :
    ∃ (s2 : ManagerState) (vf : VirtualFile),
      (writePersist now r p b s1).snd =
        { s2 with
          files := insertA p vf s2.files
          fs := insertA vf.physical_path b s2.fs
          quota := { s2.quota with
            current_physical := add64 s2.quota.current_physical b.length } } := by
  unfold writePersist at hw ⊢
  by_cases hsp : hasPhysicalSpace s1 b.length = false
  · rw [if_pos hsp] at hw
    simp at hw
  · rw [if_neg hsp] at hw ⊢
    rcases hl1 : lookupA p s1.files with _ | vfile
    · rw [hl1] at hw
      simp at hw
    · exact ⟨s1,
        { vfile with
          physical_size := b.length
          last_access := now
          priority_score := vfile.priority_score * clampQ r 1 2 }, rfl⟩

theorem writeVirtualFile_success_shape (now : Nat) (oracle : VirtualFile → StorageTier)
    (r : ℚ) (s1 : ManagerState) (p : String) (b : List Nat)
    (hw : (writeVirtualFile now oracle r s1 p b).fst = true) :
    ∃ (s2 : ManagerState) (vf : VirtualFile),
      (writeVirtualFile now oracle r s1 p b).snd =
        { s2 with
          files := insertA p vf s2.files
          fs := insertA vf.physical_path b s2.fs
          quota := { s2.quota with
            current_physical := add64 s2.quota.current_physical b.length } } := by
  rcases hl0 : lookupA p s1.files with _ | vf0
  · unfold writeVirtualFile at hw
    rw [hl0] at hw
    simp at hw
  · have hw' :
        (writePersist now r p b
          (if hasPhysicalSpace s1 b.length then s1 else optimizeAllTiers oracle s1)).fst
          = true := by
      unfold writeVirtualFile at hw
      rw [hl0] at hw
      exact hw
    obtain ⟨s2, vf, h⟩ := writePersist_success_shape now r p b _ hw'
    refine ⟨s2, vf, ?_⟩
    unfold writeVirtualFile
    rw [hl0]
    exact h

/-- Reading from a state of the shape a successful write leaves (entry and
bytes stored under the same `physical_path`) succeeds and returns exactly the
written bytes when the caller's buffer is large enough. -/
theorem read_returns_written_bytes (now3 buf : Nat) (p : String) (b : List Nat)
    (t : ManagerState) (vf : VirtualFile) (fl : List (String × VirtualFile))
    (fsl : List (String × List Nat))
    (hf : t.files = insertA p vf fl) (hfs : t.fs = insertA vf.physical_path b fsl)
    (hbuf : b.length ≤ buf) :
    (readVirtualFile now3 t p buf).fst = true ∧
    (readVirtualFile now3 t p buf).snd.snd = some b := by
  unfold readVirtualFile
  rw [hf, lookupA_insertA_self]
  simp [readFetch, readDeliver, downloadFromCloud, hfs, lookupA_insertA_self,
    not_lt.mpr hbuf]

/-- Claim C6 (confirmed): round-trip.  After `create(p, n)` succeeds and
`write(p, b)` succeeds with `len(b) <= n`, a read of `p` with a caller buffer
of at least `len(b)` bytes succeeds and returns exactly `b`.  (The tier
predictor used by a possible synchronous rebalance inside the write, and the
write-time quantum factor, are universally quantified.) -/
theorem C6_roundtrip (now1 now2 now3 : Nat) (oracle : VirtualFile → StorageTier) (r : ℚ)
    (s : ManagerState) (p : String) (n : Nat) (b : List Nat) (buf : Nat)
    (_hc : (createVirtualFile now1 s p n).fst = true)
    (hw : (writeVirtualFile now2 oracle r (createVirtualFile now1 s p n).snd p b).fst = true)
    (_hb : b.length ≤ n) (hbuf : b.length ≤ buf) :
    (readVirtualFile now3
        (writeVirtualFile now2 oracle r (createVirtualFile now1 s p n).snd p b).snd
        p buf).fst = true ∧
    (readVirtualFile now3
        (writeVirtualFile now2 oracle r (createVirtualFile now1 s p n).snd p b).snd
        p buf).snd.snd = some b := by
  obtain ⟨s2, vf, hshape⟩ :=
    writeVirtualFile_success_shape now2 oracle r (createVirtualFile now1 s p n).snd p b hw
  rw [hshape]
  exact read_returns_written_bytes now3 buf p b _ vf s2.files s2.fs rfl rfl hbuf

/-- Witness for C6 at a concrete trace: create `"a"` of size 5, write two
bytes, read them back. -/
theorem C6_witness :
    (readVirtualFile 2
        (writeVirtualFile 1 (fun _ => .HOT) 1
          (createVirtualFile 0 (initState "root" 1000 2) "a" 5).snd "a" [7, 8]).snd
        "a" 2).fst = true ∧
    (readVirtualFile 2
        (writeVirtualFile 1 (fun _ => .HOT) 1
          (createVirtualFile 0 (initState "root" 1000 2) "a" 5).snd "a" [7, 8]).snd
        "a" 2).snd.snd = some [7, 8] := by
  refine C6_roundtrip 0 1 2 (fun _ => .HOT) 1 (initState "root" 1000 2) "a" 5 [7, 8] 2
    ?_ ?_ (by norm_num) (by norm_num)
  · norm_num [createVirtualFile, initState, expandVirtualSpace, ratToSize, add64, W64]
  · have e1 : ratToSize ((1000 : Nat) * (2 : ℚ)) = 2000 := by
      norm_num [ratToSize]
      rfl
    have h1 : createVirtualFile 0 (initState "root" 1000 2) "a" 5 =
        (true,
          { base_path := "root"
            files := [("a",
              { virtual_path := "a", physical_path := getPhysicalPath "root" "a" .HOT,
                virtual_size := 5, physical_size := 0, tier := .HOT, is_cached := false,
                is_compressed := false, last_access := 0, priority_score := 1,
                cloud_location := "" })]
            quota := { physical_limit := 1000, virtual_limit := 2000, current_physical := 0,
                       current_virtual := 5, multiplier_factor := 2 }
            max_cache_size := 1073741824, fs := [] }) := by
      simp only [createVirtualFile, expandVirtualSpace, initState, e1]
      norm_num [add64, W64, insertA]
    rw [h1]
    norm_num [writeVirtualFile, writePersist, hasPhysicalSpace, lookupA, add64, W64]

/-!
Priority-score bound machinery for claim C9.
-/

/-- Invariant: every table entry's `priority_score` is at least `1.0`. -/
def priorityInv (s : ManagerState) : Prop :=
  ∀ kv ∈ s.files, (1 : ℚ) ≤ (Prod.snd kv).priority_score

theorem fileCore_priority {v v' : VirtualFile} (h : fileCore v' = fileCore v) :
    v'.priority_score = v.priority_score := by
  simp only [fileCore, Prod.mk.injEq] at h
  exact h.2.2.2.2.2.2.1

theorem priorityInv_optimizeAllTiers (oracle : VirtualFile → StorageTier) (s : ManagerState)
    (h : priorityInv s) : priorityInv (optimizeAllTiers oracle s) := by
  intro kv hkv
  obtain ⟨q, v'⟩ := kv
  obtain ⟨v, hmem, hcore⟩ := mem_optimizeFiles s.base_path oracle s.files s.fs q v' hkv
  have := h (q, v) hmem
  simpa [fileCore_priority hcore] using this

theorem priorityInv_create (now : Nat) (s : ManagerState) (p : String) (n : Nat)
    (h : priorityInv s) : priorityInv (createVirtualFile now s p n).snd := by
  by_cases hg : s.quota.virtual_limit < add64 s.quota.current_virtual n
  · by_cases hm : 10 < s.quota.multiplier_factor * (11 / 10)
    · have hval : createVirtualFile now s p n = (false, s) := by
        unfold createVirtualFile expandVirtualSpace
        simp [if_pos hg, if_pos hm]
      rw [hval]
      exact h
    · have hval : (createVirtualFile now s p n).snd.files =
          insertA p
            { virtual_path := p, physical_path := getPhysicalPath s.base_path p .HOT,
              virtual_size := n, physical_size := 0, tier := .HOT, is_cached := false,
              is_compressed := false, last_access := now, priority_score := 1,
              cloud_location := "" } s.files := by
        unfold createVirtualFile expandVirtualSpace
        simp [if_pos hg, if_neg hm]
      intro kv hkv
      rw [hval] at hkv
      rcases mem_of_mem_insertA hkv with rfl | hmem
      · norm_num
      · exact h kv hmem
  · have hval : (createVirtualFile now s p n).snd.files =
        insertA p
          { virtual_path := p, physical_path := getPhysicalPath s.base_path p .HOT,
            virtual_size := n, physical_size := 0, tier := .HOT, is_cached := false,
            is_compressed := false, last_access := now, priority_score := 1,
            cloud_location := "" } s.files := by
      unfold createVirtualFile expandVirtualSpace
      simp [if_neg hg]
    intro kv hkv
    rw [hval] at hkv
    rcases mem_of_mem_insertA hkv with rfl | hmem
    · norm_num
    · exact h kv hmem

theorem one_le_clampQ (r : ℚ) : (1 : ℚ) ≤ clampQ r 1 2 := le_max_left _ _

theorem priorityInv_writePersist (now : Nat) (r : ℚ) (p : String) (b : List Nat)
    (s1 : ManagerState) (h : priorityInv s1) : priorityInv (writePersist now r p b s1).snd := by
  unfold writePersist
  by_cases hsp : hasPhysicalSpace s1 b.length = false
  · rw [if_pos hsp]
    exact h
  · rw [if_neg hsp]
    rcases hl : lookupA p s1.files with _ | vfile
    · exact h
    · intro kv hkv
      have hkv' : kv ∈ insertA p
          { vfile with
            physical_size := b.length
            last_access := now
            priority_score := vfile.priority_score * clampQ r 1 2 } s1.files := hkv
      rcases mem_of_mem_insertA hkv' with rfl | hmem
      · have h1 : (1 : ℚ) ≤ vfile.priority_score := h _ (lookupA_mem hl)
        have h2 : (1 : ℚ) ≤ clampQ r 1 2 := one_le_clampQ r
        have : (1 : ℚ) * 1 ≤ vfile.priority_score * clampQ r 1 2 :=
          mul_le_mul h1 h2 (by norm_num) (le_trans (by norm_num) h1)
        simpa using this
      · exact h kv hmem

theorem priorityInv_write (now : Nat) (oracle : VirtualFile → StorageTier) (r : ℚ)
    (s : ManagerState) (p : String) (b : List Nat) (h : priorityInv s) :
    priorityInv (writeVirtualFile now oracle r s p b).snd := by
  unfold writeVirtualFile
  rcases hl : lookupA p s.files with _ | vf0
  · exact h
  · by_cases hsp : hasPhysicalSpace s b.length = true
    · rw [if_pos hsp]
      exact priorityInv_writePersist now r p b s h
    · rw [if_neg hsp]
      exact priorityInv_writePersist now r p b _ (priorityInv_optimizeAllTiers oracle s h)

theorem priorityInv_readFetch (buf : Nat) (vfile : VirtualFile) (s1 : ManagerState)
    (p : String) (h : priorityInv s1) (hp : (1 : ℚ) ≤ vfile.priority_score) :
    priorityInv (readFetch buf vfile s1 p).snd.fst := by
  unfold readFetch
  by_cases hdl : vfile.tier = .FROZEN ∧ vfile.cloud_location ≠ "" ∧
      downloadFromCloud p = false
  · rw [if_pos hdl]
    exact h
  · rw [if_neg hdl]
    rcases hfs : lookupA vfile.physical_path s1.fs with _ | data
    · exact h
    · show priorityInv (readDeliver buf vfile s1 p data).snd.fst
      unfold readDeliver
      by_cases hb : buf < data.length
      · rw [if_pos hb]
        exact h
      · rw [if_neg hb]
        intro kv hkv
        have hkv' : kv ∈ insertA p
            { vfile with priority_score := min (vfile.priority_score + 1 / 10) 2 }
            s1.files := hkv
        rcases mem_of_mem_insertA hkv' with rfl | hmem
        · exact le_min (by linarith) (by norm_num)
        · exact h kv hmem

theorem priorityInv_read (now : Nat) (s : ManagerState) (p : String) (buf : Nat)
    (h : priorityInv s) : priorityInv (readVirtualFile now s p buf).snd.fst := by
  unfold readVirtualFile
  rcases hl : lookupA p s.files with _ | vf0
  · exact h
  · have h1 : priorityInv
        ({ s with files := insertA p { vf0 with last_access := now } s.files } :
          ManagerState) := by
      intro kv hkv
      have hkv' : kv ∈ insertA p { vf0 with last_access := now } s.files := hkv
      rcases mem_of_mem_insertA hkv' with rfl | hmem
      · exact h (p, vf0) (lookupA_mem hl)
      · exact h kv hmem
    exact priorityInv_readFetch buf _ _ p h1 (h (p, vf0) (lookupA_mem hl))

theorem priorityInv_delete (s : ManagerState) (p : String) (h : priorityInv s) :
    priorityInv (deleteVirtualFile s p).snd := by
  unfold deleteVirtualFile
  rcases hl : lookupA p s.files with _ | vfile
  · exact h
  · intro kv hkv
    have hkv' : kv ∈ eraseA p s.files := hkv
    exact h kv (mem_of_mem_eraseA hkv')

theorem priorityInv_applyOp (s : ManagerState) (op : Op) (h : priorityInv s) :
    priorityInv (applyOp s op) := by
  cases op with
  | create now p n => exact priorityInv_create now s p n h
  | write now p b r oracle => exact priorityInv_write now oracle r s p b h
  | read now p buf => exact priorityInv_read now s p buf h
  | delete p => exact priorityInv_delete s p h
  | rebalance oracle => exact priorityInv_optimizeAllTiers oracle s h
  | trimCache =>
    unfold applyOp
    rw [optimizeCache_eq]
    exact h
  | recalc m => exact h

theorem priorityInv_runOps (ops : List Op) :
    ∀ (s : ManagerState), priorityInv s → priorityInv (runOps s ops) := by
  induction ops with
  | nil => intro s h; exact h
  | cons op rest ih =>
    intro s h
    exact ih (applyOp s op) (priorityInv_applyOp s op h)

/-- Claim C9 (amended): over every sequence of operations from a fresh
manager, every file's `priority_score` stays at least `1.0` — but it is NOT
bounded by `2.0`: reads cap their `+0.1` bump at `2.0`, while writes multiply
by the clamped quantum factor in `[1.0, 2.0]` with no upper cap, so repeated
writes push the score above `2.0` (see the counterexample). -/
theorem C9_priority_lower_bound (ops : List Op) (base : String) (phys : Nat) (m : ℚ)
    (p : String) (vf : VirtualFile)
    (h : lookupA p (runOps (initState base phys m) ops).files = some vf) :
    (1 : ℚ) ≤ vf.priority_score := by
  have hinv : priorityInv (runOps (initState base phys m) ops) :=
    priorityInv_runOps ops _ (by intro kv hkv; simp [initState] at hkv)
  exact hinv (p, vf) (lookupA_mem h)

/-- Witness for C9's amended theorem: after a single create, the file's
priority is (at least) 1. -/
theorem C9_witness :
    (1 : ℚ) ≤
      ({ virtual_path := "a", physical_path := getPhysicalPath "root" "a" .HOT,
         virtual_size := 5, physical_size := 0, tier := .HOT, is_cached := false,
         is_compressed := false, last_access := 0, priority_score := 1,
         cloud_location := "" } : VirtualFile).priority_score :=
  C9_priority_lower_bound [Op.create 0 "a" 5] "root" 1000 2 "a" _
    (by
      have e1 : ratToSize ((1000 : Nat) * (2 : ℚ)) = 2000 := by
        norm_num [ratToSize]
        rfl
      simp only [runOps, List.foldl, applyOp]
      simp only [createVirtualFile, expandVirtualSpace, initState, e1]
      norm_num [add64, W64, insertA, lookupA])

/-- The file state during the repeated-write counterexample for C9: priority
`pr`, physical size `ps`, created and always written at hour 0. -/
def c9file (pr : ℚ) (ps : Nat) : VirtualFile :=
  { virtual_path := "a", physical_path := getPhysicalPath "root" "a" .HOT,
    virtual_size := 1, physical_size := ps, tier := .HOT, is_cached := false,
    is_compressed := false, last_access := 0, priority_score := pr, cloud_location := "" }

def c9state (pr : ℚ) (phys ps : Nat) (fsl : List (String × List Nat)) : ManagerState :=
  { base_path := "root", files := [("a", c9file pr ps)],
    quota := { physical_limit := 1000, virtual_limit := 2000, current_physical := phys,
               current_virtual := 1, multiplier_factor := 2 },
    max_cache_size := 1073741824, fs := fsl }

theorem c9_write_step (pr : ℚ) (phys ps : Nat) (fsl : List (String × List Nat))
    (hphys : phys < 1000) :
    writeVirtualFile 0 (fun _ => .HOT) (23 / 20) (c9state pr phys ps fsl) "a" [9] =
      (true, c9state (pr * (23 / 20)) (phys + 1) 1
        (insertA (getPhysicalPath "root" "a" .HOT) [9] fsl)) := by
  have hadd : add64 phys 1 = phys + 1 := by
    have hw : W64 = 18446744073709551616 := by norm_num [W64]
    unfold add64
    rw [hw]
    omega
  have hsp : hasPhysicalSpace (c9state pr phys ps fsl) ([9] : List Nat).length = true := by
    simp only [hasPhysicalSpace, c9state, List.length_cons, List.length_nil, hadd,
      decide_eq_true_eq]
    omega
  have hsp' : ¬ hasPhysicalSpace (c9state pr phys ps fsl) ([9] : List Nat).length = false := by
    rw [hsp]
    simp
  have hcl : clampQ (23 / 20) 1 2 = 23 / 20 := by
    unfold clampQ
    rw [min_eq_left (by norm_num), max_eq_right (by norm_num)]
  have hlook : lookupA "a" (c9state pr phys ps fsl).files = some (c9file pr ps) := rfl
  unfold writeVirtualFile
  rw [hlook, if_pos hsp]
  unfold writePersist
  rw [if_neg hsp', hlook]
  simp [c9state, c9file, insertA, hadd, hcl]

def c9ops : List Op :=
  [Op.create 0 "a" 1,
   Op.write 0 "a" [9] (23 / 20) (fun _ => .HOT),
   Op.write 0 "a" [9] (23 / 20) (fun _ => .HOT),
   Op.write 0 "a" [9] (23 / 20) (fun _ => .HOT),
   Op.write 0 "a" [9] (23 / 20) (fun _ => .HOT),
   Op.write 0 "a" [9] (23 / 20) (fun _ => .HOT)]

/-- Claim C9 counterexample: five immediate writes to a freshly created file
drive its `priority_score` to `1.15^5 > 2` — writes multiply the score by the
clamped quantum factor with no `2.0` cap.  The second conjunct shows the
factor the source actually computes at each of those writes
(`CalculateFileQuantumFactor` of the lone, uncompressed, just-accessed file)
is exactly `1.15 = 23/20`, the value the trace feeds in. -/
theorem C9_counterexample :
    (∃ vf, lookupA "a" (runOps (initState "root" 1000 2) c9ops).files = some vf ∧
        2 < vf.priority_score) ∧
    (∀ pr : ℚ, calculateFileQuantumFactor ["a"] 0 (c9file pr 1) = 23 / 20) := by
  constructor
  · have e1 : ratToSize ((1000 : Nat) * (2 : ℚ)) = 2000 := by
      norm_num [ratToSize]
      rfl
    have ha0 : applyOp (initState "root" 1000 2) (Op.create 0 "a" 1) = c9state 1 0 0 [] := by
      show (createVirtualFile 0 (initState "root" 1000 2) "a" 1).snd = c9state 1 0 0 []
      simp only [createVirtualFile, expandVirtualSpace, initState, e1]
      norm_num [add64, W64, insertA, c9state, c9file]
    have key : ∀ (pr : ℚ) (phys ps : Nat) (fsl : List (String × List Nat)),
        phys < 1000 →
        applyOp (c9state pr phys ps fsl) (Op.write 0 "a" [9] (23 / 20) (fun _ => .HOT)) =
          c9state (pr * (23 / 20)) (phys + 1) 1
            (insertA (getPhysicalPath "root" "a" .HOT) [9] fsl) := by
      intro pr phys ps fsl hphys
      show (writeVirtualFile 0 (fun _ => .HOT) (23 / 20) (c9state pr phys ps fsl) "a" [9]).snd
        = _
      rw [c9_write_step pr phys ps fsl hphys]
    simp only [c9ops, runOps, List.foldl]
    rw [ha0, key 1 0 0 [] (by norm_num), key _ 1 1 _ (by norm_num), key _ 2 1 _ (by norm_num),
      key _ 3 1 _ (by norm_num), key _ 4 1 _ (by norm_num)]
    refine ⟨c9file ((((1 * (23 / 20) * (23 / 20)) * (23 / 20)) * (23 / 20)) * (23 / 20)) 1,
      ?_, ?_⟩
    · simp [c9state, lookupA]
    · simp only [c9file]
      norm_num
  · intro pr
    have hdir : relatedDirCount ["a"] "a" = 0 := by decide
    have hext : relatedExtCount ["a"] "a" = 0 := by decide
    have hent : calculateQuantumEntanglement ["a"] "a" = 0 := by
      unfold calculateQuantumEntanglement
      rw [hdir, hext]
      norm_num [Real.tanh_zero, clampR]
    unfold calculateFileQuantumFactor
    simp only [c9file]
    rw [hent]
    norm_num [Real.exp_zero, clampR]

/-!
Claims C5 and C7: the real-valued tier prediction and coefficient recompute.
-/

theorem entanglement_self (p : String) : calculateQuantumEntanglement [p] p = 0 := by
  have hdir : relatedDirCount [p] p = 0 := by
    simp [relatedDirCount]
  have hext : relatedExtCount [p] p = 0 := by
    simp [relatedExtCount]
  unfold calculateQuantumEntanglement
  rw [hdir, hext]
  norm_num [Real.tanh_zero, clampR]

/-- For a lone uncompressed file the quantum factor is `1.05 + 0.1 * e^(-h/24)`,
which is at most `1.15`; at `194` or more elapsed hours the adjusted age
`h / factor` is at least `168`, so `PredictOptimalTier` yields `FROZEN`. -/
theorem loneUncompressedFrozen (table : List String) (now : Nat) (vf : VirtualFile)
    (htab : table = [vf.virtual_path]) (hcomp : vf.is_compressed = false)
    (hh : 194 ≤ now - vf.last_access) :
    predictOptimalTier table now vf = StorageTier.FROZEN := by
  set h : Nat := now - vf.last_access with hdef
  set E : ℝ := Real.exp (-(h : ℝ) / 24) with hE
  have hE0 : 0 < E := Real.exp_pos _
  have hE1 : E ≤ 1 := by
    rw [hE]
    have : Real.exp (-(h : ℝ) / 24) ≤ Real.exp 0 := by
      apply Real.exp_le_exp.mpr
      have : (0 : ℝ) ≤ (h : ℝ) := Nat.cast_nonneg h
      linarith
    simpa [Real.exp_zero] using this
  have hqf : calculateFileQuantumFactor table now vf = 1 + 0 * 0.2 + E * 0.1 + 1 * 0.05 := by
    unfold calculateFileQuantumFactor
    rw [htab, entanglement_self, hcomp]
    rw [if_neg (by simp)]
    show clampR (1 + 0 * 0.2 + Real.exp (-(h : ℝ) / 24) * 0.1 + 1 * 0.05) 1 2
        = 1 + 0 * 0.2 + E * 0.1 + 1 * 0.05
    rw [← hE]
    unfold clampR
    rw [min_eq_left (by nlinarith), max_eq_right (by nlinarith)]
  have hqf0 : 0 < calculateFileQuantumFactor table now vf := by
    rw [hqf]
    nlinarith
  have hadj : (168 : ℝ) ≤ (h : ℝ) / calculateFileQuantumFactor table now vf := by
    rw [le_div_iff₀ hqf0, hqf]
    have hcast : (194 : ℝ) ≤ (h : ℝ) := by
      exact_mod_cast hh
    nlinarith
  simp only [predictOptimalTier]
  rw [← hdef, if_neg (by push_neg; linarith), if_neg (by push_neg; linarith),
    if_neg (by push_neg; linarith)]

/-- Claim C5 (amended): tier prediction divides the elapsed hours by the
file's QUANTUM FACTOR (`CalculateFileQuantumFactor`, clamped to `[1.0, 2.0]`),
not by the priority score — it is entirely independent of `priority_score` —
and buckets the adjusted age at 1 h / 24 h / 168 h.  A file untouched for 200
hours is classified Frozen whenever its quantum factor is at most `200/168`,
which holds for every lone uncompressed file (factor at most `1.15`). -/
theorem C5_tier_prediction (table : List String) (now : Nat) (vf : VirtualFile) (x : ℚ)
    (htab : table = [vf.virtual_path]) (hcomp : vf.is_compressed = false)
    (hh : now - vf.last_access = 200) :
    predictOptimalTier table now { vf with priority_score := x } =
      predictOptimalTier table now vf ∧
    predictOptimalTier table now vf = StorageTier.FROZEN := by
  constructor
  · rfl
  · exact loneUncompressedFrozen table now vf htab hcomp (by omega)

/-- Witness for C5's amended theorem at a concrete 200-hour-old file. -/
def c5wfile : VirtualFile :=
  { virtual_path := "a", physical_path := "root/cold/a", virtual_size := 10,
    physical_size := 10, tier := .COLD, is_cached := false, is_compressed := false,
    last_access := 0, priority_score := 1, cloud_location := "" }

theorem C5_witness :
    predictOptimalTier ["a"] 200 { c5wfile with priority_score := 7 } =
      predictOptimalTier ["a"] 200 c5wfile ∧
    predictOptimalTier ["a"] 200 c5wfile = StorageTier.FROZEN :=
  C5_tier_prediction ["a"] 200 c5wfile 7 rfl rfl rfl

/-- Claim C5 counterexample: a lone uncompressed file untouched for 300 hours
with the maximum priority score `2.0`.  The claimed formula (elapsed hours
divided by `priority_score`) gives `300 / 2 = 150 < 168`, i.e. Cold; the code
divides by the quantum factor (at most `1.15` here) and yields Frozen. -/
def c5file : VirtualFile :=
  { virtual_path := "a", physical_path := "root/cold/a", virtual_size := 10,
    physical_size := 10, tier := .COLD, is_cached := false, is_compressed := false,
    last_access := 0, priority_score := 2, cloud_location := "" }

theorem C5_counterexample :
    predictOptimalTier ["a"] 300 c5file = StorageTier.FROZEN ∧
    specPredictTier (300 - c5file.last_access) ((c5file.priority_score : ℚ) : ℝ) =
      StorageTier.COLD := by
  constructor
  · exact loneUncompressedFrozen ["a"] 300 c5file rfl rfl (by norm_num [c5file])
  · have hp : c5file.priority_score = 2 := rfl
    have hl : c5file.last_access = 0 := rfl
    rw [hp, hl]
    simp only [specPredictTier]
    norm_num

theorem le_clampR (x lo hi : ℝ) : lo ≤ clampR x lo hi := le_max_left _ _

theorem clampR_le (x lo hi : ℝ) (h : lo ≤ hi) : clampR x lo hi ≤ hi :=
  max_le h (min_le_right _ _)

/-- Claim C7 (amended): each recompute sets the coefficient to
`clamp((base + compression_boost + cloud_boost + ml_boost + locality_effect) *
(1 + noise) + 0.05 * sin(sum * pi), 1.5, 10.0)` — with a flat ML term `0.4` in
addition to the boosts the claim lists, and with a random noise factor and a
sinusoidal interference term applied by `ApplyQuantumSuperposition`, so for a
fixed file-table state the result still depends on the random noise.  The
clamp to `[1.5, 10.0]` does hold. -/
theorem C7_recompute_formula (files : List VirtualFile) (noise : ℝ) :
    recalculateQuantumMultiplier files noise =
      clampR (applyQuantumSuperposition noise
        (2 + getCompressionEfficiency files * 0.3 +
          (if 0 < getCloudStorageUsed files then (1.5 : ℝ) else 0) + 0.4 +
          entanglementEffect files * 0.5)) 1.5 10 ∧
    (1.5 : ℝ) ≤ recalculateQuantumMultiplier files noise ∧
    recalculateQuantumMultiplier files noise ≤ 10 := by
  refine ⟨rfl, le_clampR _ _ _, clampR_le _ _ _ (by norm_num)⟩

/-- Claim C7 counterexample: on the empty file table — a fixed state — the
recomputed coefficient differs between noise `0` and noise `1`, so it is not a
function of the table state alone (and at noise `0` it is `2.4 + 0.05 *
sin(2.4 * pi) > 2.35`, not the `2.0` the claim's formula gives with every
listed boost equal to zero). -/
theorem C7_counterexample :
    recalculateQuantumMultiplier [] 0 ≠ recalculateQuantumMultiplier [] 1 := by
  have h1 : getCompressionEfficiency [] = 0 := by
    unfold getCompressionEfficiency compressedTotals
    norm_num
  have h2 : getCloudStorageUsed [] = 0 := rfl
  have h3 : entanglementEffect [] = 0 := by
    unfold entanglementEffect
    norm_num
  have hbase : ∀ ν : ℝ, recalculateQuantumMultiplier [] ν =
      clampR (applyQuantumSuperposition ν 2.4) 1.5 10 := by
    intro ν
    simp only [recalculateQuantumMultiplier, h1, h2, h3]
    norm_num
  have hs1 : Real.sin ((2.4 : ℝ) * Real.pi) ≤ 1 := Real.sin_le_one _
  have hs2 : -1 ≤ Real.sin ((2.4 : ℝ) * Real.pi) := Real.neg_one_le_sin _
  have hw0 : recalculateQuantumMultiplier [] 0 =
      2.4 * (1 + 0) + Real.sin ((2.4 : ℝ) * Real.pi) * 0.05 := by
    rw [hbase 0]
    unfold applyQuantumSuperposition clampR
    rw [min_eq_left (by nlinarith), max_eq_right (by nlinarith)]
  have hw1 : recalculateQuantumMultiplier [] 1 =
      2.4 * (1 + 1) + Real.sin ((2.4 : ℝ) * Real.pi) * 0.05 := by
    rw [hbase 1]
    unfold applyQuantumSuperposition clampR
    rw [min_eq_left (by nlinarith), max_eq_right (by nlinarith)]
  rw [hw0, hw1]
  intro h
  have h' := add_right_cancel h
  norm_num at h'

end StorageOpt
